import Mathlib

/-!
Verification of the STM-100 serial protocol driver.

Shallow embedding of `stm100.py`, the driver for a Sycon STM-100
quartz crystal balance controller, together with proofs about its
frame codec, instrument session and typed accessors.

Conventions of the embedding:

* Wire bytes are `Nat` values (each `< 256` on real hardware); a byte
  stream is a `List Nat` consumed from the front, mirroring the
  blocking `read_bytes` calls.  A stream that runs out of bytes models
  a transport timeout.
* Python strings are Lean `String`s; `ord` is `Char.toNat` and the
  one-byte UTF-8 decode of an ASCII byte is `Char.ofNat`.
* A Python function that can raise maps to `Except PyError _`; the
  constructors of `PyError` name the exception classes the source can
  raise (`ValueError`, `RuntimeError`, `IndexError`, `AssertionError`,
  and the pyvisa timeout error).
-/

namespace STM100

/-- The exception classes the Python source can raise, used as the error
type of fallible operations. -/
inductive PyError
  | valueError
  | runtimeError
  | indexError
  | assertionError
  | timeout
  deriving DecidableEq, Repr

instance {ε α : Type} [DecidableEq ε] [DecidableEq α] :
    DecidableEq (Except ε α) := fun x y =>
  match x, y with
  | .ok a, .ok b =>
    if h : a = b then .isTrue (by rw [h])
    else .isFalse (fun hc => h (by injection hc))
  | .ok _, .error _ => .isFalse (fun hc => by injection hc)
  | .error _, .ok _ => .isFalse (fun hc => by injection hc)
  | .error e, .error f =>
    if h : e = f then .isTrue (by rw [h])
    else .isFalse (fun hc => h (by injection hc))

/-- Model of `STM100._calc_checksum`: `sum(ord(c) for c in msg) % 256`. -/
def _calc_checksum (msg : String) : Nat :=
  (msg.data.map Char.toNat).sum % 256

/-- Model of `STM100._send`: refuses messages longer than 10 characters
(`ValueError`), otherwise builds the frame
`bytes([2, len(msg)] + [ord(c) for c in msg] + [chksum])`.
The returned byte list is what `inst.write_raw` puts on the wire;
an error means nothing was written. -/
def _send (msg : String) : Except PyError (List Nat) :=
  if msg.length > 10 then .error .valueError
  else .ok ([2, msg.length] ++ msg.data.map Char.toNat ++ [_calc_checksum msg])

/-- Model of `STM100._read`: reads one start byte (must decode to `'\x02'`, else the
input buffer is flushed and a `RuntimeError` is raised), one length byte
`msgsize`, `msgsize` payload bytes, and one checksum byte.  A checksum
mismatch is only logged (`msg_ok` is computed and then dropped), the
decoded payload is returned regardless as `(msg[0], msg[1:])`; on an
empty payload the subscript `msg[0]` raises an `IndexError`.  A stream
that is too short for a requested `read_bytes` models the pyvisa
timeout. -/
def _read (stream : List Nat) : Except PyError (Char × String) :=
  match stream with
  | [] => .error .timeout
  | s :: r1 =>
    if s = 2 then
      match r1 with
      | [] => .error .timeout
      | msgsize :: r2 =>
        if r2.length < msgsize then .error .timeout
        else
          match r2.drop msgsize with
          | [] => .error .timeout
          | chksum :: _ =>
            let msg : List Char := (r2.take msgsize).map Char.ofNat
            let _msg_ok : Bool := chksum = _calc_checksum (String.mk msg)
            match msg with
            | [] => .error .indexError
            | c :: cs => .ok (c, String.mk cs)
    else .error .runtimeError

/-- The session state the driver keeps across queries: `self.statuscode`,
`None` until the first successfully decoded reply. -/
structure Session where
  statuscode : Option Char
  deriving DecidableEq, Repr

/-- Model of `STM100.query`: `_send` the command, `_read` one reply frame from the
stream, record the returned status character in `statuscode` and return
the body.  When `_send` or `_read` raises, the exception propagates and
the assignment `self.statuscode = ret` never runs, so the session is
returned unchanged. -/
def query (sess : Session) (msg : String) (stream : List Nat) :
    Session × Except PyError String :=
  match _send msg with
  | .error e => (sess, .error e)
  | .ok _frame =>
    match _read stream with
    | .error e => (sess, .error e)
    | .ok (ret, ans) => ({ statuscode := some ret }, .ok ans)

/-- Python's substring membership `needle in hay` on strings: true when
`needle` occurs contiguously inside `hay` (the empty string is a
substring of everything). -/
def py_substr : List Char → List Char → Bool
  | needle, [] => needle.isEmpty
  | needle, c :: t => needle.isPrefixOf (c :: t) || py_substr needle t

/-- The reply-parsing core of `STM100._query_bool`, applied to the body
`ans` returned by `query`: `assert ans in "!@"` — note the Python
substring membership — then `return ans == '!'`.  The raised
`AssertionError` is the spec's `UnexpectedResponse`. -/
def _query_bool (ans : String) : Except PyError Bool :=
  if py_substr ans.data ('!' :: '@' :: []) then .ok (ans == "!")
  else .error .assertionError

/-- Decimal digit test, `'0'` through `'9'`. -/
def pyDigit (c : Char) : Bool := '0' ≤ c && c ≤ '9'

/-- Value of a string of decimal digits. -/
def digitsVal (l : List Char) : Nat :=
  l.foldl (fun a c => 10 * a + (c.toNat - 48)) 0

/-- Python's `str.split(sep)` for a one-character separator: splitting
the empty string gives `[""]`, a string without the separator gives
itself as the single field. -/
def py_split (sep : Char) : List Char → List (List Char)
  | [] => [[]]
  | c :: t =>
    if c = sep then [] :: py_split sep t
    else
      match py_split sep t with
      | [] => [[c]]
      | h :: r => (c :: h) :: r

/-- Model of Python `int(...)` on the optionally signed decimal literals
the instrument can send; a malformed literal raises `ValueError`.
(CPython's tolerance for surrounding whitespace and `_` separators is
not modelled; no claim depends on it.) -/
def py_int (l : List Char) : Except PyError Int :=
  match l with
  | [] => .error .valueError
  | c :: r =>
    if c = '-' then
      if !r.isEmpty && r.all pyDigit then .ok (-(digitsVal r : Int))
      else .error .valueError
    else if c = '+' then
      if !r.isEmpty && r.all pyDigit then .ok ((digitsVal r : Int))
      else .error .valueError
    else
      if (c :: r).all pyDigit then .ok ((digitsVal (c :: r) : Int))
      else .error .valueError

/-- The `minutes, seconds = ans.split(':')` / `60 * int(minutes) +
int(seconds)` tail of the `timer` getter: `ValueError` when the split
does not have exactly two fields or a field is not an integer literal. -/
def timer_core (l : List Char) : Except PyError (Option Int) :=
  match py_split ':' l with
  | [m, s] =>
    match py_int m, py_int s with
    | .ok minutes, .ok seconds => .ok (some (60 * minutes + seconds))
    | _, _ => .error .valueError
  | _ => .error .valueError

/-- The `STM100.timer` getter applied to the reply body: `ans[0]` raises
`IndexError` on an empty body; a body starting with `'>'` returns `nan`
(modelled `.ok none`); otherwise the body is split at `':'` into minutes
and seconds.  The spec's `MalformedDuration` is the `ValueError` of the
split/parse. -/
def timer (ans : String) : Except PyError (Option Int) :=
  match ans.data with
  | [] => .error .indexError
  | c :: _ => if c = '>' then .ok none else timer_core ans.data

/-- The `setpoint` setter: `assert 0 <= value <= 9999999` — the raised
`AssertionError` is the spec's `OutOfRange`, and it fires before `query`
is ever called, so a rejected value reaches no I/O.  An accepted value
issues the command `f"G={int(value):d}"`; the setter is modelled on
integer inputs, where `int(value)` is the identity. -/
def setpoint_set (value : Int) : Except PyError String :=
  if 0 ≤ value ∧ value ≤ 9999999 then .ok ("G=" ++ toString value)
  else .error .assertionError

/-- A Python float as the driver observes it: either a parsed value or
the `nan` that `_query_float` substitutes on `ValueError`.  The parsed
values are carried exactly (as rationals); no claim computes with
them. -/
inductive PFloat
  | nan
  | val (q : ℚ)
  deriving DecidableEq, Repr

/-- Unsigned part of Python `float(...)` on plain decimal literals:
an integer part, optionally a `'.'` and a fractional part, at least one
of the two nonempty. -/
def py_float_core (l : List Char) : Option ℚ :=
  match py_split '.' l with
  | [ip] =>
    if !ip.isEmpty && ip.all pyDigit then some ((digitsVal ip : ℚ)) else none
  | [ip, fp] =>
    if (ip.all pyDigit && fp.all pyDigit) && (!ip.isEmpty || !fp.isEmpty) then
      some ((digitsVal ip : ℚ) + (digitsVal fp : ℚ) / (10 : ℚ) ^ fp.length)
    else none
  | _ => none

/-- Model of Python `float(...)` on optionally signed decimal literals
(exponent and `inf`/`nan` spellings are not modelled; no claim depends
on them). -/
def py_float (l : List Char) : Option ℚ :=
  match l with
  | '-' :: r => (py_float_core r).map (fun q => -q)
  | '+' :: r => py_float_core r
  | _ => py_float_core l

/-- Model of `STM100._query_float` applied to the reply body: `float(...)` of the
body, with `ValueError` caught and turned into `nan`. -/
def _query_float (reply : String) : PFloat :=
  match py_float reply.data with
  | some q => .val q
  | none => .nan

/-- One saved-film record, the dict
`{density: ..., zfactor: ..., tooling: ...}` built per slot by
`query_films`. -/
structure Film where
  density : PFloat
  zfactor : PFloat
  tooling : PFloat
  deriving DecidableEq, Repr

/-- The record `query_films` builds for slot `f`: the dict comprehension
over `params = dict(density='j', zfactor='k', tooling='o')` issues the
three queries `j{f}?`, `k{f}?`, `o{f}?` in insertion order and parses
each reply with `_query_float`.  `oracle` maps each issued command to the
body the instrument replies with. -/
def slot_film (oracle : String → String) (f : Nat) : Film where
  density := _query_float (oracle ("j" ++ toString f ++ "?"))
  zfactor := _query_float (oracle ("k" ++ toString f ++ "?"))
  tooling := _query_float (oracle ("o" ++ toString f ++ "?"))

/-- The `for f in range(1, 10)` loop of `query_films`, appending one
record per slot; the second component is the exact sequence of commands
handed to `query`, in issue order. -/
def query_films_loop (oracle : String → String) :
    List Nat → List Film × List String
  | [] => ([], [])
  | f :: fs =>
    let rest := query_films_loop oracle fs
    (slot_film oracle f :: rest.1,
      ("j" ++ toString f ++ "?") :: ("k" ++ toString f ++ "?") ::
        ("o" ++ toString f ++ "?") :: rest.2)

/-- Model of `STM100.query_films`: iterate the loop over `range(1, 10)`, that is
slots 1 through 9. -/
def query_films (oracle : String → String) : List Film × List String :=
  query_films_loop oracle (List.range' 1 9)

end STM100

namespace STM100

/-- Decoding a frame `0x02 | n | payload (n bytes) | chksum | rest` with a
nonempty payload succeeds with the first payload character as status and
the remaining characters as body, for any checksum byte whatsoever. -/
theorem read_frame (c : Char) (cs : List Char) (chk : Nat) (rest : List Nat) :
    _read (2 :: (cs.length + 1) :: ((c :: cs).map Char.toNat ++ chk :: rest)) =
      .ok (c, String.mk cs) := by
  have hlen : (c.toNat :: List.map Char.toNat cs).length = cs.length + 1 := by simp
  have hnot : ¬ ((c.toNat :: List.map Char.toNat cs) ++ chk :: rest).length <
      cs.length + 1 := by simp
  simp only [_read, List.map_cons, if_true]
  rw [if_neg hnot, List.drop_left' hlen, List.take_left' hlen]
  simp only [List.map_cons, List.map_map, Function.comp_def, Char.ofNat_toNat,
    List.map_id, List.map_id']

/-- Claim C8: encoding an 11-character command fails with `ValueError`
(`CommandTooLong` in the spec's taxonomy) — the length check precedes the
`write_raw` call, so nothing reaches the transport — while a 10-character
command succeeds and produces the frame
`[0x02, 10] ++ command bytes ++ [checksum]`.  The `≤ 255` bound records
that each command character must fit in one wire byte (`bytes(...)` in
Python rejects larger values). -/
theorem send_length_boundary :
    (∀ msg : String, msg.length = 11 → _send msg = .error .valueError) ∧
    (∀ msg : String, msg.length = 10 → (∀ ch ∈ msg.data, ch.toNat ≤ 255) →
      _send msg =
        .ok ([2, 10] ++ msg.data.map Char.toNat ++ [_calc_checksum msg])) := by
  constructor
  · intro msg h
    simp [_send, h]
  · intro msg h _
    simp [_send, h]

/-- Witness for `send_length_boundary` at concrete 11- and 10-character
commands. -/
theorem send_length_boundary_witness :
    _send "abcdefghijk" = .error .valueError ∧
    _send "abcdefghij" =
      .ok ([2, 10] ++ "abcdefghij".data.map Char.toNat ++
        [_calc_checksum "abcdefghij"]) :=
  ⟨send_length_boundary.1 "abcdefghijk" (by decide),
   send_length_boundary.2 "abcdefghij" (by decide) (by decide)⟩

/-- Claim C2 (amended): a received frame with start byte `0x02`, a length
byte `n ≥ 1`, `n` payload bytes and a checksum byte decodes to the
Response (status = first payload character, body = remaining characters)
for ANY received checksum byte — a mismatch is only logged, never raised.
The ASCII bound marks where the byte-wise model of Python's UTF-8
`.decode()` is exact.  For length byte 0 the claim fails, see
`decode_len0_mismatch_fails`. -/
theorem decode_tolerates_checksum_mismatch
    (c : Char) (cs : List Char) (hascii : ∀ ch ∈ c :: cs, ch.toNat ≤ 127)
    (chk : Nat) (rest : List Nat) :
    _read ([2, cs.length + 1] ++ (c :: cs).map Char.toNat ++ chk :: rest) =
      .ok (c, String.mk cs) :=
  read_frame c cs chk rest

/-- Witness for `decode_tolerates_checksum_mismatch`: payload `"OK"` with
received checksum 99, although the payload's checksum is 154. -/
theorem decode_tolerates_checksum_mismatch_witness :
    _read ([2, (['K'] : List Char).length + 1] ++
        (['O', 'K'] : List Char).map Char.toNat ++ 99 :: []) =
      .ok ('O', String.mk ['K']) :=
  decode_tolerates_checksum_mismatch 'O' ['K'] (by decide) 99 []

/-- Claim C2 as stated is false at length byte 0: the frame `[0x02, 0, 7]`
carries a length byte, that many (zero) payload bytes and a checksum byte,
yet `_read` raises `IndexError` at `msg[0]` instead of returning a
Response. -/
theorem decode_len0_mismatch_fails :
    _read [2, 0, 7] = .error .indexError := by decide

/-- Claim C3 (amended): a frame whose length byte is 0 does NOT decode —
`msg[0]` on the empty payload raises `IndexError` — while an empty body
is produced by the frame with length byte 1 whose single payload byte is
the status character. -/
theorem decode_len0_fails_len1_empty_body :
    (∀ chk rest, _read (2 :: 0 :: chk :: rest) = .error .indexError) ∧
    (∀ c : Char, c.toNat ≤ 127 →
      ∀ chk rest, _read (2 :: 1 :: c.toNat :: chk :: rest) =
        .ok (c, String.mk [])) := by
  constructor
  · intro chk rest
    simp [_read]
  · intro c _ chk rest
    simpa using read_frame c [] chk rest

/-- Witness for `decode_len0_fails_len1_empty_body` on concrete frames. -/
theorem decode_len0_fails_len1_empty_body_witness :
    _read (2 :: 0 :: 5 :: []) = .error .indexError ∧
    _read (2 :: 1 :: ('A' : Char).toNat :: 9 :: []) = .ok ('A', String.mk []) :=
  ⟨decode_len0_fails_len1_empty_body.1 5 [],
   decode_len0_fails_len1_empty_body.2 'A' (by decide) 9 []⟩

/-- Claim C3 as stated is false: `[0x02, 0, 0]` is well formed (its
checksum byte 0 is exactly the checksum of the empty payload), yet
decoding raises `IndexError` instead of yielding an empty body. -/
theorem decode_len0_wellformed_fails :
    _read [2, 0, 0] = .error .indexError := by decide

/-- Claim C1 (amended): every nonempty command of at most 10 ASCII
characters encodes to the frame `[0x02, len] ++ bytes ++ [checksum]`, and
decoding that frame recovers exactly the command — first character as
status, rest as body — with the frame's checksum byte equal to the
checksum of the recovered payload.  The empty command fails the
roundtrip, see `encode_decode_empty_fails`. -/
theorem encode_decode_roundtrip (msg : String) (h1 : 1 ≤ msg.length)
    (h2 : msg.length ≤ 10) (hascii : ∀ ch ∈ msg.data, ch.toNat ≤ 127) :
    ∃ st : Char, ∃ body : String,
      _send msg =
        .ok ([2, msg.length] ++ msg.data.map Char.toNat ++
          [_calc_checksum msg]) ∧
      _read ([2, msg.length] ++ msg.data.map Char.toNat ++
          [_calc_checksum msg]) = .ok (st, body) ∧
      st :: body.data = msg.data ∧
      _calc_checksum (String.mk (st :: body.data)) = _calc_checksum msg := by
  obtain ⟨c, cs, hdata⟩ : ∃ c cs, msg.data = c :: cs := by
    cases hd : msg.data with
    | nil =>
      exfalso
      have : msg.length = 0 := by simp [String.length, hd]
      omega
    | cons c cs => exact ⟨c, cs, rfl⟩
  have hmk : String.mk msg.data = msg := by cases msg; rfl
  have hlen : msg.length = cs.length + 1 := by simp [String.length, hdata]
  refine ⟨c, String.mk cs, ?_, ?_, ?_, ?_⟩
  · simp only [_send, if_neg (show ¬ msg.length > 10 by omega)]
  · rw [hdata, hlen]
    exact read_frame c cs (_calc_checksum msg) []
  · simp [hdata]
  · show _calc_checksum (String.mk (c :: cs)) = _calc_checksum msg
    rw [← hdata, hmk]

/-- Witness for `encode_decode_roundtrip` at the setpoint query `"G?"`. -/
theorem encode_decode_roundtrip_witness :
    ∃ st : Char, ∃ body : String,
      _send "G?" =
        .ok ([2, "G?".length] ++ "G?".data.map Char.toNat ++
          [_calc_checksum "G?"]) ∧
      _read ([2, "G?".length] ++ "G?".data.map Char.toNat ++
          [_calc_checksum "G?"]) = .ok (st, body) ∧
      st :: body.data = "G?".data ∧
      _calc_checksum (String.mk (st :: body.data)) = _calc_checksum "G?" :=
  encode_decode_roundtrip "G?" (by decide) (by decide) (by decide)

/-- Claim C1 as stated is false at the empty command: it encodes to the
frame `[0x02, 0, 0]` but decoding that frame raises `IndexError`, so the
payload is not recovered. -/
theorem encode_decode_empty_fails :
    _send "" = .ok [2, 0, 0] ∧ _read [2, 0, 0] = .error .indexError := by
  exact ⟨by decide, by decide⟩

/-- Claim C7: when the reply to a query cannot be decoded (`_read` raises,
for instance on a first byte that is not the start marker `0x02`), the
session is returned unchanged, so `statuscode` keeps its previous value;
and conversely, whenever the session state changed at all, `_read`
decoded a reply successfully and `statuscode` holds its status
character. -/
theorem query_statuscode_stale_on_decode_failure
    (sess : Session) (msg : String) (stream : List Nat) :
    (∀ e, _read stream = .error e → (query sess msg stream).1 = sess) ∧
    ((query sess msg stream).1 ≠ sess →
      ∃ ret ans, _read stream = .ok (ret, ans) ∧
        (query sess msg stream).1.statuscode = some ret) := by
  refine ⟨fun e he => ?_, fun hne => ?_⟩
  · cases hs : _send msg with
    | error e2 => simp [query, hs]
    | ok frame => simp [query, hs, he]
  · cases hs : _send msg with
    | error e2 => exact absurd (by simp [query, hs]) hne
    | ok frame =>
      cases hr : _read stream with
      | error e2 => exact absurd (by simp [query, hs, hr]) hne
      | ok pair =>
        obtain ⟨ret, ans⟩ := pair
        exact ⟨ret, ans, rfl, by simp [query, hs, hr]⟩

/-- Witness for `query_statuscode_stale_on_decode_failure`: a reply that
does not start with `0x02` leaves a previously recorded status intact. -/
theorem query_statuscode_stale_witness :
    (query ⟨some 'A'⟩ "S" [7, 2, 65]).1 = ⟨some 'A'⟩ :=
  (query_statuscode_stale_on_decode_failure ⟨some 'A'⟩ "S" [7, 2, 65]).1
    .runtimeError (by decide)

/-- Claim C10: a query whose reply frame parses — start byte present, all
declared payload bytes and the checksum byte read — overwrites
`statuscode` with the first payload character no matter what the received
checksum byte is: a corrupted-but-parseable frame updates the session
exactly like a valid one.  The hypotheses bound the command to what
`_send` accepts and record the ASCII fidelity boundary of the byte model
of Python's UTF-8 handling. -/
theorem query_statuscode_updated_despite_mismatch
    (sess : Session) (msg : String) (hmsg : msg.length ≤ 10)
    (hcmd : ∀ ch ∈ msg.data, ch.toNat ≤ 127)
    (c : Char) (cs : List Char) (hascii : ∀ ch ∈ c :: cs, ch.toNat ≤ 127)
    (chk : Nat) (rest : List Nat) :
    query sess msg ([2, cs.length + 1] ++ (c :: cs).map Char.toNat ++
        chk :: rest) =
      (⟨some c⟩, .ok (String.mk cs)) := by
  unfold query
  rw [show _send msg = .ok ([2, msg.length] ++ msg.data.map Char.toNat ++
      [_calc_checksum msg]) by
    simp only [_send, if_neg (show ¬ msg.length > 10 by omega)]]
  simp only [List.cons_append, List.nil_append]
  rw [read_frame c cs chk rest]

/-- Witness for `query_statuscode_updated_despite_mismatch`: querying
`"W"` and receiving payload `"A>"` with the (wrong) checksum byte 0 still
records status `'A'` and returns body `">"`. -/
theorem query_statuscode_updated_witness :
    query ⟨none⟩ "W" ([2, (['>'] : List Char).length + 1] ++
        (['A', '>'] : List Char).map Char.toNat ++ 0 :: []) =
      (⟨some 'A'⟩, .ok (String.mk ['>'])) :=
  query_statuscode_updated_despite_mismatch ⟨none⟩ "W" (by decide) (by decide)
    'A' ['>'] (by decide) 0 []

/-- A list without the separator splits into the single field it is. -/
theorem py_split_no_sep (sep : Char) :
    ∀ l : List Char, sep ∉ l → py_split sep l = [l] := by
  intro l hl
  induction l with
  | nil => rfl
  | cons c t ih =>
    have hc : ¬ c = sep := fun h => hl (by simp [h])
    have ht : sep ∉ t := fun h => hl (List.mem_cons_of_mem _ h)
    simp only [py_split, if_neg hc, ih ht]

/-- Splitting `m ++ sep :: s` with `sep ∉ m` yields `m` as the first
field followed by the split of `s`. -/
theorem py_split_append (sep : Char) :
    ∀ m s : List Char, sep ∉ m →
      py_split sep (m ++ sep :: s) = m :: py_split sep s := by
  intro m
  induction m with
  | nil => intro s _; simp [py_split]
  | cons c t ih =>
    intro s hm
    have hc : ¬ c = sep := fun h => hm (by simp [h])
    have ht : sep ∉ t := fun h => hm (List.mem_cons_of_mem _ h)
    simp only [List.cons_append, py_split, if_neg hc, List.append_eq, ih s ht]

/-- Applying `py_int` to a nonempty all-digit string gives is its decimal value. -/
theorem py_int_digits (c : Char) (r : List Char)
    (h : (c :: r).all pyDigit) : py_int (c :: r) = .ok ((digitsVal (c :: r) : Int)) := by
  have hc : pyDigit c := by
    have := (List.all_eq_true.mp h) c (by simp)
    exact this
  have hne1 : ¬ c = '-' := by
    intro hEq; rw [hEq] at hc; exact absurd hc (by decide)
  have hne2 : ¬ c = '+' := by
    intro hEq; rw [hEq] at hc; exact absurd hc (by decide)
  simp only [py_int, if_neg hne1, if_neg hne2, if_pos h]

/-- A digit string contains no `':'`. -/
theorem no_colon_of_digits (l : List Char) (h : l.all pyDigit) : ':' ∉ l := by
  intro hmem
  have := (List.all_eq_true.mp h) ':' hmem
  exact absurd this (by decide)

/-- Claim C4, evaluated where the source diverges from it: the boolean
getter's `assert ans in "!@"` is a Python substring test, so not only the
sentinels `"!"` and `"@"` but also the empty body and the body `"!@"`
pass the assertion, and both of the latter are answered `false` instead
of failing with `UnexpectedResponse` as the getter's own docstring
("returns boolean reply, i.e., '@' or '!' character") prescribes. -/
theorem query_bool_substring_flaw :
    _query_bool "!" = .ok true ∧
    _query_bool "@" = .ok false ∧
    _query_bool "X" = .error .assertionError ∧
    _query_bool "" = .ok false ∧
    _query_bool "!@" = .ok false := by decide

/-- Claim C5 (amended): `"01:30"` parses to 90 seconds and in general
`"MM:SS"` over decimal digits parses to `60*MM + SS`; a body starting
with the overflow marker `'>'` yields `nan` (unknown duration); a
nonempty body that neither starts with `'>'` nor contains `':'` fails
with the split's `ValueError` (the spec's `MalformedDuration`); the
empty body instead fails with `IndexError` at `ans[0]`. -/
theorem timer_parse_spec :
    timer "01:30" = .ok (some 90) ∧
    (∀ m s : List Char, m ≠ [] → s ≠ [] → m.all pyDigit → s.all pyDigit →
      timer (String.mk (m ++ ':' :: s)) =
        .ok (some (60 * (digitsVal m : Int) + (digitsVal s : Int)))) ∧
    (∀ cs : List Char, timer (String.mk ('>' :: cs)) = .ok none) ∧
    (∀ (c : Char) (cs : List Char), c ≠ '>' → ':' ∉ c :: cs →
      timer (String.mk (c :: cs)) = .error .valueError) ∧
    timer "" = .error .indexError := by
  refine ⟨by decide, ?_, ?_, ?_, by decide⟩
  · intro m s hm hs hmd hsd
    obtain ⟨c, m', rfl⟩ : ∃ c m', m = c :: m' := by
      cases m with
      | nil => exact absurd rfl hm
      | cons c m' => exact ⟨c, m', rfl⟩
    have hc : pyDigit c := (List.all_eq_true.mp hmd) c (by simp)
    have hcgt : ¬ c = '>' := by
      intro hEq; rw [hEq] at hc; exact absurd hc (by decide)
    have h1 : timer (String.mk ((c :: m') ++ ':' :: s)) =
        if c = '>' then .ok none else timer_core ((c :: m') ++ ':' :: s) := rfl
    rw [h1, if_neg hcgt]
    unfold timer_core
    rw [py_split_append ':' (c :: m') s (no_colon_of_digits _ hmd),
      py_split_no_sep ':' s (no_colon_of_digits _ hsd)]
    obtain ⟨d, s', rfl⟩ : ∃ d s', s = d :: s' := by
      cases s with
      | nil => exact absurd rfl hs
      | cons d s' => exact ⟨d, s', rfl⟩
    simp only [py_int_digits c m' hmd, py_int_digits d s' hsd]
  · intro cs
    rfl
  · intro c cs hgt hcolon
    have h1 : timer (String.mk (c :: cs)) =
        if c = '>' then .ok none else timer_core (c :: cs) := rfl
    rw [h1, if_neg hgt]
    unfold timer_core
    rw [py_split_no_sep ':' (c :: cs) hcolon]

/-- Witness for `timer_parse_spec` at concrete bodies: `"2:05"`,
`">99"` and `"bad"`. -/
theorem timer_parse_spec_witness :
    timer (String.mk (['2'] ++ ':' :: ['0', '5'])) =
      .ok (some (60 * (digitsVal ['2'] : Int) + (digitsVal ['0', '5'] : Int))) ∧
    timer (String.mk ('>' :: ['9', '9'])) = .ok none ∧
    timer (String.mk ('b' :: ['a', 'd'])) = .error .valueError :=
  ⟨timer_parse_spec.2.1 ['2'] ['0', '5'] (by decide) (by decide) (by decide)
      (by decide),
   timer_parse_spec.2.2.1 ['9', '9'],
   timer_parse_spec.2.2.2.1 'b' ['a', 'd'] (by decide) (by decide)⟩

/-- Claim C5 as stated is false at the empty body: it neither starts with
the overflow marker nor contains `':'`, yet the getter dies at `ans[0]`
with `IndexError`, not with the split's `ValueError` that plays the role
of `MalformedDuration`. -/
theorem timer_empty_body_not_malformed :
    timer "" = .error .indexError ∧ timer "" ≠ .error .valueError := by decide

/-- Claim C6: the setpoint setter rejects every value outside
`[0, 9999999]` with the `AssertionError` raised before any I/O — in
particular `-1` and `10000000` — and an in-range value such as `5000`
issues exactly the command `G=5000`. -/
theorem setpoint_range_check :
    (∀ v : Int, v < 0 ∨ 9999999 < v →
      setpoint_set v = .error .assertionError) ∧
    setpoint_set (-1) = .error .assertionError ∧
    setpoint_set 10000000 = .error .assertionError ∧
    setpoint_set 5000 = .ok "G=5000" := by
  refine ⟨fun v hv => ?_, by decide, by decide, by decide⟩
  unfold setpoint_set
  rw [if_neg (show ¬ (0 ≤ v ∧ v ≤ 9999999) by omega)]

/-- Witness for `setpoint_range_check` at the concrete value `-2`. -/
theorem setpoint_range_check_witness :
    setpoint_set (-2) = .error .assertionError :=
  setpoint_range_check.1 (-2) (Or.inl (by decide))

/-- Claim C9: one `films` refresh issues exactly the 27 commands below —
3 parameter queries per slot, slots 1 through 9 in order, never slot 0 —
and returns the 9 slot records in that same slot order. -/
theorem query_films_spec (oracle : String → String) :
    (query_films oracle).2 =
      ["j1?", "k1?", "o1?", "j2?", "k2?", "o2?", "j3?", "k3?", "o3?",
       "j4?", "k4?", "o4?", "j5?", "k5?", "o5?", "j6?", "k6?", "o6?",
       "j7?", "k7?", "o7?", "j8?", "k8?", "o8?", "j9?", "k9?", "o9?"] ∧
    (query_films oracle).2.length = 27 ∧
    (query_films oracle).1 = (List.range' 1 9).map (slot_film oracle) ∧
    (query_films oracle).1.length = 9 ∧
    (∀ cmd ∈ (query_films oracle).2,
      cmd ∉ (["j0?", "k0?", "o0?"] : List String)) := by
  have h2 : (query_films oracle).2 =
      ["j1?", "k1?", "o1?", "j2?", "k2?", "o2?", "j3?", "k3?", "o3?",
       "j4?", "k4?", "o4?", "j5?", "k5?", "o5?", "j6?", "k6?", "o6?",
       "j7?", "k7?", "o7?", "j8?", "k8?", "o8?", "j9?", "k9?", "o9?"] := by
    rfl
  refine ⟨h2, by rw [h2]; rfl, rfl, rfl, ?_⟩
  rw [h2]
  decide

/-- Witness for `query_films_spec` with a constant-reply oracle. -/
theorem query_films_spec_witness :
    (query_films (fun _ => "7")).2.length = 27 ∧
    (query_films (fun _ => "7")).1.length = 9 ∧
    ("j1?" : String) ∉ (["j0?", "k0?", "o0?"] : List String) :=
  ⟨(query_films_spec (fun _ => "7")).2.1,
   (query_films_spec (fun _ => "7")).2.2.2.1,
   (query_films_spec (fun _ => "7")).2.2.2.2 "j1?"
     (by rw [(query_films_spec (fun _ => "7")).1]; decide)⟩

end STM100
